import Mathlib

/-!
Verification development for the golf mini-game repository.

The physics core (`src/lib/physics/simulator.ts`, embedded at
`src/components/game/GameCanvas.tsx` lines 1139-1437), the seeded RNG
(`src/unnamed/part_004`, i.e. `src/lib/physics/rng.ts`), the security
manager (`src/unnamed/part_006`) and the play route
(`src/app/api/mock/play/route.ts`) are shallowly embedded here.

Modelling conventions:
* JavaScript 64-bit floats are modelled as exact rationals (`ℚ`); the
  source's decimal literals become the corresponding exact rationals.
* 32-bit integer coercions (`>>> 0`, `Math.imul`, bitwise ops) are modelled
  exactly with natural-number arithmetic mod 2^32.
* `Math.round` is modelled by Mathlib's `round` (`⌊x + 1/2⌋`), which matches
  JavaScript's round-half-toward-positive-infinity semantics on all inputs.
* The transcendental library functions `Math.cos`, `Math.sin`, `Math.sqrt`
  have no exact rational counterpart; the embedding takes them as an
  explicit parameter (`MathOps`).  Every general theorem below is proved for
  an arbitrary `MathOps`; concrete evaluations use `demoOps`, whose `sqrt`
  is exact on rational perfect squares and whose `cos`/`sin` are truncated
  Taylor polynomials, and are arranged so that the trace being evaluated
  does not depend on the approximated values (they are multiplied by zero
  or only feed comparisons with wide margins).
-/

set_option maxRecDepth 8000

attribute [local semireducible] Rat.add Rat.mul Rat.inv Rat.sub Rat.ofScientific

/-- The 64-bit float value of JavaScript's `Math.PI`, as an exact rational. -/
def jsPI : ℚ := 884279719003555 / 281474976710656

/-- Reduce a natural number into the unsigned 32-bit range, as JavaScript's
`>>> 0` / `Math.imul` coercions do. -/
def mask32 (n : ℕ) : ℕ := n % 4294967296

/-- JavaScript `ToUint32` on a float value: truncate toward zero, then take
the value mod 2^32. -/
def jsToUint32 (q : ℚ) : ℕ := ((q.num / (q.den : ℤ)) % 4294967296).toNat

/-- The per-step 4-decimal rounding of the simulator:
`Math.round(x * 10000) / 10000`. -/
def round4 (x : ℚ) : ℚ := ((round (x * 10000) : ℤ) : ℚ) / 10000

/-- JavaScript `Number.isInteger` on the rational model of a JavaScript number. -/
def jsIsInteger (q : ℚ) : Bool := q.den == 1

/-- The mulberry32 output word: given the stored seed value (after the
`this.seed += 0x6D2B79F5` increment), produce the 32-bit result of
`rng.ts` lines 11-14. -/
def mulberry32Word (s : ℚ) : ℕ :=
  let t0 := jsToUint32 s
  let a := Nat.xor t0 (t0 / 32768)
  let b := t0 ||| 1
  let t1 := mask32 (a * b)
  let c := Nat.xor t1 (t1 / 128)
  let d := t1 ||| 61
  let t2 := mask32 (t1 + mask32 (c * d))
  let t3 := Nat.xor t1 t2
  Nat.xor t3 (t3 / 16384)

/-- State of `SeededRNG` (`rng.ts`): the single stored `seed` field. -/
structure SeededRNG where
  seed : ℚ
  deriving DecidableEq, Repr

namespace SeededRNG

/-- Constructor `new SeededRNG(seed)`. -/
def mk' (seed : ℚ) : SeededRNG := ⟨seed⟩

/-- Method `next()`: advance the stored seed by `0x6D2B79F5` and return the
mulberry32 output scaled into `[0, 1)` (`rng.ts` lines 10-15). -/
def next (r : SeededRNG) : ℚ × SeededRNG :=
  let s := r.seed + 1831565813
  ((mulberry32Word s : ℚ) / 4294967296, ⟨s⟩)

/-- Method `range(min, max)` = `min + next() * (max - min)` (`rng.ts` lines 18-20). -/
def range (lo hi : ℚ) (r : SeededRNG) : ℚ × SeededRNG :=
  let (v, r') := r.next
  (lo + v * (hi - lo), r')

/-- Method `reset(newSeed?)`: `this.seed = newSeed ?? this.seed`
(`rng.ts` lines 23-25).  Note: with no argument the stored (already
advanced) seed is kept; nothing restores the construction-time seed. -/
def reset (newSeed : Option ℚ) (r : SeededRNG) : SeededRNG :=
  match newSeed with
  | some s => ⟨s⟩
  | none => r

end SeededRNG

/-- Rational stand-ins for the transcendental JavaScript math functions used
by the simulator.  General theorems are proved for an arbitrary `MathOps`. -/
structure MathOps where
  cos : ℚ → ℚ
  sin : ℚ → ℚ
  sqrt : ℚ → ℚ

/-- Integer Newton iteration for the floor square root, with explicit fuel
so that it reduces by structural recursion. -/
def sqrtIter : ℕ → ℕ → ℕ → ℕ
  | 0, _, g => g
  | fuel + 1, n, g =>
    let g' := (g + n / g) / 2
    if g' < g then sqrtIter fuel n g' else g

/-- Floor square root of a natural number (Newton's method; 128 iterations
suffice for any argument below `2^128`). -/
def natSqrt (n : ℕ) : ℕ := if n ≤ 1 then n else sqrtIter 128 n n

/-- A computable square root on `ℚ` that is exact whenever the numerator and
denominator are perfect squares (the only cases the concrete evaluations
below depend on) and a floor-square-root approximation otherwise. -/
def ratSqrt (q : ℚ) : ℚ :=
  if q ≤ 0 then 0 else (natSqrt q.num.toNat : ℚ) / (natSqrt q.den : ℚ)

/-- Degree-8 Taylor polynomial of cosine, a computable stand-in for
`Math.cos`.  No theorem below depends on its accuracy. -/
def cosTaylor (x : ℚ) : ℚ :=
  1 - x ^ 2 / 2 + x ^ 4 / 24 - x ^ 6 / 720 + x ^ 8 / 40320

/-- Degree-7 Taylor polynomial of sine, a computable stand-in for
`Math.sin`.  No theorem below depends on its accuracy. -/
def sinTaylor (x : ℚ) : ℚ :=
  x - x ^ 3 / 6 + x ^ 5 / 120 - x ^ 7 / 5040

/-- The concrete `MathOps` used for closed evaluations. -/
def demoOps : MathOps :=
  { cos := cosTaylor, sin := sinTaylor, sqrt := ratSqrt }

/-- 2-component vector (`types.ts` `Vector2D`). -/
structure Vector2D where
  x : ℚ
  y : ℚ
  deriving DecidableEq, Repr

/-- Record `PhysicsConfig` (`types.ts` / `simulator.ts`). -/
structure PhysicsConfig where
  VMAX : ℚ
  friction : ℚ
  holePosition : Vector2D
  holeRadius : ℚ
  tolerance : ℚ
  windMaxMagnitude : ℚ
  maxSimTime : ℚ
  stopSpeedThreshold : ℚ
  timestep : ℚ
  gravity : ℚ
  airResistance : ℚ
  bounceRestitution : ℚ
  rollResistance : ℚ
  deriving DecidableEq, Repr

/-- Constant `DEFAULT_PHYSICS_CONFIG` (`simulator.ts` lines 1150-1164 of the
embedded file). -/
def DEFAULT_PHYSICS_CONFIG : PhysicsConfig :=
  { VMAX := 30
    friction := 15 / 1000
    holePosition := ⟨45, 0⟩
    holeRadius := 54 / 1000
    tolerance := 2 / 100
    windMaxMagnitude := 3
    maxSimTime := 15
    stopSpeedThreshold := 5 / 100
    timestep := 1 / 120
    gravity := 981 / 100
    airResistance := 1 / 1000
    bounceRestitution := 3 / 10
    rollResistance := 8 / 1000 }

/-- Record `BallState` (`types.ts`). -/
structure BallState where
  position : Vector2D
  velocity : Vector2D
  acceleration : Vector2D
  spin : ℚ
  time : ℚ
  isRolling : Bool
  deriving DecidableEq, Repr

/-- Record `SimulationInput`.  The play route passes `angle`, `anglePhi`, `power`
and `seed` (`lib/physics/types.ts` includes `anglePhi`); the simulator in
`GameCanvas.tsx` reads only `angle`, `power` and `seed`.  All fields are
JavaScript numbers, modelled as `ℚ`. -/
structure SimulationInput where
  angle : ℚ
  anglePhi : ℚ
  power : ℚ
  seed : ℚ
  deriving DecidableEq, Repr

/-- Record `PhysicsValidation` (`types.ts`). -/
structure PhysicsValidation where
  isValid : Bool
  errors : List String
  warnings : List String
  deriving DecidableEq, Repr

/-- The `stoppedReason` tag of `SimulationResult`. -/
inductive StopReason where
  | hole
  | friction
  | timeout
  | boundary
  deriving DecidableEq, Repr

/-- The `outcome` tag of `SimulationResult`. -/
inductive Outcome where
  | win
  | lose
  deriving DecidableEq, Repr

/-- Record `SimulationResult` (`types.ts`). -/
structure SimulationResult where
  trajectory : List BallState
  outcome : Outcome
  finalPosition : Vector2D
  totalTime : ℚ
  maxHeight : ℚ
  totalDistance : ℚ
  windEffect : Vector2D
  stoppedReason : StopReason
  deriving DecidableEq, Repr

namespace GolfPhysicsSimulator

/-- Method `validateInput` (`GameCanvas.tsx` lines 1177-1206).  Note that the
source checks `angle`, `power` and `seed` but never `anglePhi`. -/
def validateInput (input : SimulationInput) : PhysicsValidation :=
  let errors :=
    (if input.angle < -(jsPI / 2) ∨ input.angle > jsPI / 2 then
      ["Angle must be between -90 and 90 degrees"] else []) ++
    (if input.power < 0 ∨ input.power > 1 then
      ["Power must be between 0 and 1"] else []) ++
    (if ¬(jsIsInteger input.seed = true) ∨ input.seed < 0 then
      ["Seed must be a non-negative integer"] else [])
  let warnings :=
    (if input.power < 1 / 10 then
      ["Very low power may not reach the hole"] else []) ++
    (if |input.angle| > jsPI / 4 then
      ["High angle shots are less predictable"] else [])
  { isValid := errors.length == 0, errors := errors, warnings := warnings }

/-- One step of the fixed-timestep loop, before the termination checks:
`GameCanvas.tsx` lines 1250-1320 (time increment, acceleration reset,
gravity or ground clamp, wind, air resistance, rolling resistance,
friction decay, semi-implicit Euler integration, ground collision,
spin decay, 4-decimal rounding). -/
def stepState (ops : MathOps) (cfg : PhysicsConfig) (wind : Vector2D)
    (s : BallState) : BallState :=
  let time := s.time + cfg.timestep
  let pos := s.position
  let vel := s.velocity
  let rolling := ¬(pos.y > 0 ∨ vel.y > 0)
  let posY0 := if rolling then 0 else pos.y
  let accY0 : ℚ := if rolling then 0 else -cfg.gravity
  let windMultiplier : ℚ := if rolling then 1 / 10 else 1
  let accX1 := wind.x * windMultiplier * (1 / 10)
  let accY1 := accY0 + wind.y * windMultiplier * (1 / 10)
  let speed := ops.sqrt (vel.x ^ 2 + vel.y ^ 2)
  let resistanceRatio := cfg.airResistance * speed * speed / speed
  let accX2 := if speed > 0 then accX1 - vel.x * resistanceRatio else accX1
  let accY2 := if speed > 0 then accY1 - vel.y * resistanceRatio else accY1
  let rollingRatio := min (cfg.rollResistance * cfg.gravity / speed) 1
  let accX3 := if rolling ∧ speed > 0 then accX2 - vel.x * rollingRatio else accX2
  let frictionRatio := min (cfg.friction * cfg.gravity * cfg.timestep / speed) 1
  let velX1 := if rolling ∧ speed > 0 then vel.x * (1 - frictionRatio) else vel.x
  let velY1 := if rolling ∧ speed > 0 then vel.y * (1 - frictionRatio) else vel.y
  let velX2 := velX1 + accX3 * cfg.timestep
  let velY2 := velY1 + accY2 * cfg.timestep
  let posX1 := pos.x + velX2 * cfg.timestep
  let posY1 := posY0 + velY2 * cfg.timestep
  let bounced := posY1 < 0
  let posY2 := if bounced then 0 else posY1
  let velY3 := if bounced then |velY2| * cfg.bounceRestitution else velY2
  let velY4 := if bounced ∧ velY3 < 1 / 2 then 0 else velY3
  { position := ⟨round4 posX1, round4 posY2⟩
    velocity := ⟨round4 velX2, round4 velY4⟩
    acceleration := ⟨accX3, accY2⟩
    spin := s.spin * (99 / 100)
    time := time
    isRolling := rolling }

/-- The three explicit termination checks run after each step, in source
order (`GameCanvas.tsx` lines 1330-1365): friction stop, boundary exit,
hole capture.  Returns `none` when the loop continues. -/
def stopCheck (ops : MathOps) (cfg : PhysicsConfig) (s : BallState) :
    Option StopReason :=
  let currentSpeed := ops.sqrt (s.velocity.x ^ 2 + s.velocity.y ^ 2)
  if currentSpeed < cfg.stopSpeedThreshold ∧ s.isRolling then
    some .friction
  else if |s.position.y| > 20 ∨ s.position.x < -5 ∨ s.position.x > 100 then
    some .boundary
  else
    let distanceToHole := ops.sqrt ((s.position.x - cfg.holePosition.x) ^ 2 +
      (s.position.y - cfg.holePosition.y) ^ 2)
    if distanceToHole < cfg.holeRadius ∧ s.isRolling then
      some .hole
    else
      none

/-- The fixed-timestep `while` loop of `simulate` (`GameCanvas.tsx` lines
1248-1384), written with explicit fuel.  Arguments after the fuel: current
state, trajectory so far, `maxHeight` and `totalDistance` accumulators.
Returns the final trajectory, `maxHeight`, `totalDistance`, stop reason and
final state.  The fuel chosen by `simulate` below is large enough that the
loop always exits through the `time < maxSimTime` guard or a stop check
(`simLoop_fuel_irrelevant`). -/
def simLoop (ops : MathOps) (cfg : PhysicsConfig) (wind : Vector2D) :
    ℕ → BallState → List BallState → ℚ → ℚ →
    List BallState × ℚ × ℚ × StopReason × BallState
  | 0, s, traj, mh, td => (traj, mh, td, .timeout, s)
  | fuel + 1, s, traj, mh, td =>
    if s.time < cfg.maxSimTime then
      let prev := s.position
      let s' := stepState ops cfg wind s
      let mh' := max mh s'.position.y
      let td' := td + ops.sqrt ((s'.position.x - prev.x) ^ 2 +
        (s'.position.y - prev.y) ^ 2)
      let traj' := traj ++ [s']
      match stopCheck ops cfg s' with
      | some r => (traj', mh', td', r, s')
      | none => simLoop ops cfg wind fuel s' traj' mh' td'
    else
      (traj, mh, td, .timeout, s)

/-- Fuel that strictly dominates the number of loop iterations:
`⌈maxSimTime / timestep⌉ + 1`. -/
def simFuel (cfg : PhysicsConfig) : ℕ :=
  (Int.ceil (cfg.maxSimTime / cfg.timestep)).toNat + 1

/-- The three RNG draws `simulate` makes after `this.rng.reset(input.seed)`,
in source order (`GameCanvas.tsx` lines 1224-1240): wind angle in
`[0, 2·Math.PI)`, wind magnitude in `[0, windMaxMagnitude)`, initial spin in
`[50, 200)`. -/
def rngDraws (seed : ℚ) (windMax : ℚ) : ℚ × ℚ × ℚ :=
  let r0 := SeededRNG.mk' seed
  let (windAngle, r1) := r0.range 0 (2 * jsPI)
  let (windMagnitude, r2) := r1.range 0 windMax
  let (spin0, _) := r2.range 50 200
  (windAngle, windMagnitude, spin0)

/-- The deterministic wind vector of a run
(`GameCanvas.tsx` lines 1224-1229). -/
def windEffectOf (ops : MathOps) (cfg : PhysicsConfig) (seed : ℚ) : Vector2D :=
  let (windAngle, windMagnitude, _) := rngDraws seed cfg.windMaxMagnitude
  ⟨ops.cos windAngle * windMagnitude, ops.sin windAngle * windMagnitude⟩

/-- The initial ball state pushed at `t = 0`
(`GameCanvas.tsx` lines 1216-1245): note the velocity components are the
raw `cos(angle)·power·VMAX`, `sin(angle)·power·VMAX`, not rounded. -/
def initialStateOf (ops : MathOps) (cfg : PhysicsConfig)
    (input : SimulationInput) : BallState :=
  let initialSpeed := input.power * cfg.VMAX
  let (_, _, spin0) := rngDraws input.seed cfg.windMaxMagnitude
  { position := ⟨0, 0⟩
    velocity := ⟨ops.cos input.angle * initialSpeed, ops.sin input.angle * initialSpeed⟩
    acceleration := ⟨0, 0⟩
    spin := spin0
    time := 0
    isRolling := false }

/-- Assemble the `SimulationResult` from the loop output
(`GameCanvas.tsx` lines 1386-1398): `outcome` is `"win"` exactly when the
stop reason is `"hole"`. -/
def mkResult (wind : Vector2D)
    (out : List BallState × ℚ × ℚ × StopReason × BallState) : SimulationResult :=
  { trajectory := out.1
    outcome := if out.2.2.2.1 = .hole then .win else .lose
    finalPosition := out.2.2.2.2.position
    totalTime := out.2.2.2.2.time
    maxHeight := out.2.1
    totalDistance := out.2.2.1
    windEffect := wind
    stoppedReason := out.2.2.2.1 }

/-- Method `simulate` (`GameCanvas.tsx` lines 1208-1399) with explicit loop fuel,
parameterised over the state `r0` of the simulator's RNG at call time (the
source mutates `this.rng`; `simulate` begins with
`this.rng.reset(input.seed)`).  The `throw new Error(...)` on invalid input
is modelled by `Except.error`. -/
def simulateFuel (ops : MathOps) (cfg : PhysicsConfig) (r0 : SeededRNG)
    (input : SimulationInput) (fuel : ℕ) : Except String SimulationResult :=
  let validation := validateInput input
  if validation.isValid = true then
    let rng0 := r0.reset (some input.seed)
    let wind := windEffectOf ops cfg rng0.seed
    let s0 := initialStateOf ops cfg input
    .ok (mkResult wind (simLoop ops cfg wind fuel s0 [s0] 0 0))
  else
    .error ("Invalid input: " ++ String.intercalate ", " validation.errors)

/-- Method `simulate` with the fuel `simFuel cfg`, which the theorems below show
never binds before the source loop's own `time < maxSimTime` guard when
`timestep > 0`. -/
def simulate (ops : MathOps) (cfg : PhysicsConfig) (r0 : SeededRNG)
    (input : SimulationInput) : Except String SimulationResult :=
  simulateFuel ops cfg r0 input (simFuel cfg)

/-- Number of loop iterations still possible from state `s` before the
`time < maxSimTime` guard fails: `⌈(maxSimTime - time) / timestep⌉`. -/
def needed (cfg : PhysicsConfig) (s : BallState) : ℕ :=
  (Int.ceil ((cfg.maxSimTime - s.time) / cfg.timestep)).toNat

end GolfPhysicsSimulator

/-- Record `SecurityConfig` (`src/unnamed/part_006` lines 1-7). -/
structure SecurityConfig where
  maxSessionsPerIP : ℕ
  sessionTimeoutMinutes : ℕ
  maxPlaysPerSession : ℕ
  replayProtectionWindowMs : ℚ
  suspiciousPlayThreshold : ℕ
  deriving DecidableEq, Repr

/-- Constant `DEFAULT_SECURITY_CONFIG` (`src/unnamed/part_006` lines 9-15). -/
def DEFAULT_SECURITY_CONFIG : SecurityConfig :=
  { maxSessionsPerIP := 5
    sessionTimeoutMinutes := 30
    maxPlaysPerSession := 1
    replayProtectionWindowMs := 60000
    suspiciousPlayThreshold := 3 }

/-- Result record of the security checks (`{ allowed, reason? }`). -/
structure SecurityCheck where
  allowed : Bool
  reason : Option String
  deriving DecidableEq, Repr

namespace SecurityManager

/-- Method `SecurityManager.validatePlay` (`src/unnamed/part_006` lines 43-68) for
one session: `now` is `Date.now()`, `recentPlays` is the per-session entry
of the `recentPlays` map.  Returns the check result and the updated
`recentPlays` entry (the map is only written on the success path). -/
def validatePlay (cfg : SecurityConfig) (now timestamp : ℚ)
    (recentPlays : List ℚ) : SecurityCheck × List ℚ :=
  if |now - timestamp| > cfg.replayProtectionWindowMs then
    ({ allowed := false, reason := some "Timestamp outside acceptable window" },
      recentPlays)
  else
    let filteredPlays := recentPlays.filter (fun t => t > now - 1000)
    if filteredPlays.length > 0 then
      ({ allowed := false, reason := some "Too many plays in short time window" },
        recentPlays)
    else
      ({ allowed := true, reason := none }, filteredPlays ++ [now])

end SecurityManager

/-- Record `GameSession` (`src/unnamed/part_007` lines 5-15); `expiresAt`,
`createdAt` and `lastPlayAt` are modelled as milliseconds since the epoch. -/
structure GameSession where
  seed : ℕ
  couponIds : List String
  expiresAt : ℚ
  used : Bool
  createdAt : ℚ
  playCount : ℕ
  lastPlayAt : Option ℚ
  deriving DecidableEq, Repr

/-- Outcome of one `POST /api/mock/play` request for an existing session. -/
inductive PlayRouteResult where
  | rejected (error : String) (status : ℕ)
  | accepted (outcome : Outcome)
  deriving DecidableEq, Repr

namespace PlayRoute

/-- The `POST` handler of `src/app/api/mock/play/route.ts` (lines 62-297),
for a request whose `sessionId` resolves to `session` (the 404 branch for an
unknown session is not modelled; the physics config `cfg` stands for the
`CourseManager` configuration used by `createSimulator()`).  In source
order: expiry check (410), used check (409), `security.validatePlay` (429),
parameter range check (400), simulation with the session's stored seed,
then — only when the outcome is a win — `session.used = true` and
`session.lastPlayAt = now`; `playCount` is incremented on every completed
play.  Returns the response plus the updated session and per-session
`recentPlays` security state. -/
def POST (ops : MathOps) (cfg : PhysicsConfig) (secCfg : SecurityConfig)
    (now : ℚ) (session : GameSession) (recentPlays : List ℚ)
    (angle anglePhi power timestamp : ℚ) :
    PlayRouteResult × GameSession × List ℚ :=
  if now > session.expiresAt then
    (.rejected "Session expired" 410, session, recentPlays)
  else if session.used = true then
    (.rejected "Session already used" 409, session, recentPlays)
  else
    let (securityCheck, recentPlays') :=
      SecurityManager.validatePlay secCfg now timestamp recentPlays
    if securityCheck.allowed = false then
      (.rejected (securityCheck.reason.getD "Security check failed") 429,
        session, recentPlays')
    else if angle < -(jsPI / 2) ∨ angle > jsPI / 2 ∨ power < 0 ∨ power > 1 ∨
        anglePhi < -(jsPI / 2) ∨ anglePhi > jsPI / 2 then
      (.rejected "Input parameters out of valid range" 400, session, recentPlays')
    else
      match GolfPhysicsSimulator.simulate ops cfg (SeededRNG.mk' 0)
        { angle := angle, anglePhi := anglePhi, power := power,
          seed := (session.seed : ℚ) } with
      | .error _ => (.rejected "Failed to process play" 500, session, recentPlays')
      | .ok result =>
        let session' :=
          if result.outcome = .win then
            { session with used := true, lastPlayAt := some now }
          else
            session
        (.accepted result.outcome,
          { session' with playCount := session'.playCount + 1 }, recentPlays')

end PlayRoute

/-- A ball state whose position and velocity components are fixed points of
the 4-decimal rounding. -/
def RoundedState (s : BallState) : Prop :=
  s.position.x = round4 s.position.x ∧ s.position.y = round4 s.position.y ∧
  s.velocity.x = round4 s.velocity.x ∧ s.velocity.y = round4 s.velocity.y

instance (s : BallState) : Decidable (RoundedState s) := by
  unfold RoundedState; infer_instance

/-- Trajectory length of a simulation result (0 for the error case). -/
def trajLen (res : Except String SimulationResult) : ℕ :=
  match res with
  | .ok r => r.trajectory.length
  | .error _ => 0

/-- The stop reason of a simulation result, when there is one. -/
def stoppedReasonOf (res : Except String SimulationResult) : Option StopReason :=
  match res with
  | .ok r => some r.stoppedReason
  | .error _ => none

/-- Every trajectory entry after the initial one is a fixed point of the
4-decimal rounding. -/
def TrajRoundedTail (res : Except String SimulationResult) : Prop :=
  match res with
  | .ok r => ∀ s ∈ r.trajectory.drop 1, RoundedState s
  | .error _ => True

/-- The initial trajectory entry sits at the origin. -/
def InitialPosZero (res : Except String SimulationResult) : Prop :=
  match res with
  | .ok r => ∀ s ∈ r.trajectory.take 1, s.position = ⟨0, 0⟩
  | .error _ => True

/-- The initial trajectory entry has all position/velocity components fixed
under the 4-decimal rounding. -/
def FirstEntryRounded (res : Except String SimulationResult) : Prop :=
  match res with
  | .ok r => ∀ s ∈ r.trajectory.take 1, RoundedState s
  | .error _ => True

/-- The result's outcome is `win` exactly when its stop reason is `hole`. -/
def WinIffHole (res : Except String SimulationResult) : Prop :=
  match res with
  | .ok r => (r.outcome = .win ↔ r.stoppedReason = .hole)
  | .error _ => True

/-- The hole-capture condition of the loop (`GameCanvas.tsx` line 1355):
rolling and strictly inside the hole radius; no condition on speed. -/
def holeCondition (ops : MathOps) (cfg : PhysicsConfig) (s : BallState) : Prop :=
  ops.sqrt ((s.position.x - cfg.holePosition.x) ^ 2 +
    (s.position.y - cfg.holePosition.y) ^ 2) < cfg.holeRadius ∧ s.isRolling = true

/-- The friction-stop condition of the loop (`GameCanvas.tsx` line 1332). -/
def frictionCondition (ops : MathOps) (cfg : PhysicsConfig) (s : BallState) : Prop :=
  ops.sqrt (s.velocity.x ^ 2 + s.velocity.y ^ 2) < cfg.stopSpeedThreshold ∧
    s.isRolling = true

/-- The boundary-exit condition of the loop (`GameCanvas.tsx` line 1338). -/
def boundaryCondition (s : BallState) : Prop :=
  |s.position.y| > 20 ∨ s.position.x < -5 ∨ s.position.x > 100

/-- Some trajectory entry satisfies the hole-capture condition. -/
def ExistsHoleEntry (ops : MathOps) (cfg : PhysicsConfig)
    (res : Except String SimulationResult) : Prop :=
  match res with
  | .ok r => ∃ s ∈ r.trajectory, holeCondition ops cfg s
  | .error _ => False

instance (ops : MathOps) (cfg : PhysicsConfig) (s : BallState) :
    Decidable (holeCondition ops cfg s) := by
  unfold holeCondition; infer_instance

instance (ops : MathOps) (cfg : PhysicsConfig) (s : BallState) :
    Decidable (frictionCondition ops cfg s) := by
  unfold frictionCondition; infer_instance

instance (s : BallState) : Decidable (boundaryCondition s) := by
  unfold boundaryCondition; infer_instance

instance (ops : MathOps) (cfg : PhysicsConfig)
    (res : Except String SimulationResult) :
    Decidable (ExistsHoleEntry ops cfg res) := by
  unfold ExistsHoleEntry; cases res <;> infer_instance

instance (res : Except String SimulationResult) :
    Decidable (TrajRoundedTail res) := by
  unfold TrajRoundedTail; cases res <;> infer_instance

instance (res : Except String SimulationResult) :
    Decidable (InitialPosZero res) := by
  unfold InitialPosZero; cases res <;> infer_instance

instance (res : Except String SimulationResult) :
    Decidable (FirstEntryRounded res) := by
  unfold FirstEntryRounded; cases res <;> infer_instance

instance (res : Except String SimulationResult) :
    Decidable (WinIffHole res) := by
  unfold WinIffHole; cases res <;> infer_instance

/-- The RNG of the C4 scenario: `new SeededRNG(54321)`. -/
def rngStart : SeededRNG := SeededRNG.mk' 54321

/-- The same RNG after four `next()` calls. -/
def rngAfter4 : SeededRNG := ((((rngStart.next).2.next).2.next).2.next).2

/-- A configuration with the hole centred at the tee, a generous hole
radius and no wind, used to exhibit the friction-before-hole priority. -/
def cfg6 : PhysicsConfig :=
  { DEFAULT_PHYSICS_CONFIG with
      holePosition := ⟨0, 0⟩
      holeRadius := 1
      windMaxMagnitude := 0 }

/-- A valid zero-power input. -/
def inp6 : SimulationInput := ⟨0, 0, 0, 0⟩

/-- A valid low-power input whose initial velocity `cos(0)·(1/1024)·30 =
15/512` has more than four decimal places. -/
def inp3 : SimulationInput := ⟨0, 0, 1 / 1024, 0⟩

/-- A configuration whose timestep (2/3 s) does not divide its maximum
simulation time (1 s), with no wind and a zero stop threshold so that the
run times out. -/
def cfg9 : PhysicsConfig :=
  { DEFAULT_PHYSICS_CONFIG with
      timestep := 2 / 3
      maxSimTime := 1
      stopSpeedThreshold := 0
      windMaxMagnitude := 0 }

/-- The initial state of the C9 counterexample run (seed 0, zero power). -/
def s9a : BallState :=
  { position := ⟨0, 0⟩, velocity := ⟨0, 0⟩, acceleration := ⟨0, 0⟩
    spin := 22411892075 / 268435456, time := 0, isRolling := false }

/-- The state after the first loop iteration of the C9 run. -/
def s9b : BallState :=
  { position := ⟨0, 0⟩, velocity := ⟨0, 0⟩, acceleration := ⟨0, 0⟩
    spin := 88751092617 / 1073741824, time := 2 / 3, isRolling := true }

/-- The state after the second loop iteration of the C9 run. -/
def s9c : BallState :=
  { position := ⟨0, 0⟩, velocity := ⟨0, 0⟩, acceleration := ⟨0, 0⟩
    spin := 8786358169083 / 107374182400, time := 4 / 3, isRolling := true }

/-- Whether a simulation call returned a result (did not throw). -/
def resultIsOk (res : Except String SimulationResult) : Bool :=
  match res with
  | .ok _ => true
  | .error _ => false

/-- An input whose `anglePhi` (2 rad) lies outside `[-π/2, π/2]` while all
other fields are valid. -/
def inp5 : SimulationInput := ⟨0, 2, 1 / 1024, 0⟩

/-- A live, unused session used in the concrete route scenarios. -/
def demoSession : GameSession :=
  { seed := 0
    couponIds := ["c1", "c2", "c3", "c4", "c5"]
    expiresAt := 1000000000000
    used := false
    createdAt := 0
    playCount := 0
    lastPlayAt := none }

/-- A physics configuration with no wind, making a zero-power shot an exact
all-zero trace; the play route's configuration comes from the randomly
selected `CourseManager` course, so it is a parameter of the model. -/
def cfgNoWind : PhysicsConfig :=
  { DEFAULT_PHYSICS_CONFIG with windMaxMagnitude := 0 }

/-- First play request against the fresh session `demoSession`: a zero-power
shot at `now = 0`, which loses (the ball never leaves the tee). -/
def playFirst : PlayRouteResult × GameSession × List ℚ :=
  PlayRoute.POST demoOps cfgNoWind DEFAULT_SECURITY_CONFIG 0 demoSession []
    0 0 0 0

/-- Second play request against the same session two seconds later (outside
the one-second burst window). -/
def playSecond : PlayRouteResult × GameSession × List ℚ :=
  PlayRoute.POST demoOps cfgNoWind DEFAULT_SECURITY_CONFIG 2000 playFirst.2.1
    playFirst.2.2 0 0 0 2000

/-- 4-decimal rounding is idempotent: its output is an integer multiple of
`1/10000`, and `Math.round` fixes integers. -/
theorem round4_idem (x : ℚ) : round4 (round4 x) = round4 x := by
  unfold round4
  rw [div_mul_cancel₀ _ (by norm_num : (10000 : ℚ) ≠ 0), round_intCast]

/-- Every state produced by the loop body ends with the forced rounding, so
it is a fixed point of `round4` in all four components. -/
theorem stepState_rounded (ops : MathOps) (cfg : PhysicsConfig)
    (wind : Vector2D) (s : BallState) :
    RoundedState (GolfPhysicsSimulator.stepState ops cfg wind s) := by
  refine ⟨?_, ?_, ?_, ?_⟩ <;>
    simp only [GolfPhysicsSimulator.stepState] <;>
    rw [round4_idem]

namespace GolfPhysicsSimulator

/-- The loop only appends states produced by `stepState`: its output
trajectory is the input trajectory followed by rounded states. -/
theorem simLoop_traj_spec (ops : MathOps) (cfg : PhysicsConfig)
    (wind : Vector2D) :
    ∀ (fuel : ℕ) (s : BallState) (traj : List BallState) (mh td : ℚ),
    ∃ rest, (simLoop ops cfg wind fuel s traj mh td).1 = traj ++ rest ∧
      ∀ x ∈ rest, RoundedState x := by
  intro fuel
  induction fuel with
  | zero =>
    intro s traj mh td
    exact ⟨[], by simp [simLoop]⟩
  | succ n ih =>
    intro s traj mh td
    by_cases hg : s.time < cfg.maxSimTime
    · simp only [simLoop, if_pos hg]
      cases hstop : stopCheck ops cfg (stepState ops cfg wind s) with
      | some r =>
        exact ⟨[stepState ops cfg wind s], by simp [hstop],
          by simp [hstop, stepState_rounded]⟩
      | none =>
        obtain ⟨rest, h1, h2⟩ := ih (stepState ops cfg wind s)
          (traj ++ [stepState ops cfg wind s])
          (max mh (stepState ops cfg wind s).position.y)
          (td + ops.sqrt (((stepState ops cfg wind s).position.x - s.position.x) ^ 2 +
            ((stepState ops cfg wind s).position.y - s.position.y) ^ 2))
        refine ⟨stepState ops cfg wind s :: rest, ?_, ?_⟩
        · simp only [hstop]
          rw [h1, List.append_assoc]
          rfl
        · intro x hx
          rcases List.mem_cons.mp hx with h | h
          · exact h ▸ stepState_rounded ops cfg wind s
          · exact h2 x h
    · exact ⟨[], by simp [simLoop, if_neg hg]⟩

/-- The stepped state's clock advanced by exactly one timestep. -/
theorem stepState_time (ops : MathOps) (cfg : PhysicsConfig)
    (wind : Vector2D) (s : BallState) :
    (stepState ops cfg wind s).time = s.time + cfg.timestep := rfl

/-- With a positive timestep, `needed` is zero exactly when the loop guard
fails. -/
theorem needed_eq_zero (cfg : PhysicsConfig) (s : BallState)
    (hdt : 0 < cfg.timestep) :
    needed cfg s = 0 ↔ ¬ s.time < cfg.maxSimTime := by
  unfold needed
  rw [Int.toNat_eq_zero, Int.ceil_le]
  push_cast
  rw [div_le_iff₀ hdt]
  constructor
  · intro h
    nlinarith
  · intro h
    nlinarith

/-- Taking one step decrements `needed` by one (while the guard holds). -/
theorem needed_step (ops : MathOps) (cfg : PhysicsConfig) (wind : Vector2D)
    (s : BallState) (hdt : 0 < cfg.timestep) (hg : s.time < cfg.maxSimTime) :
    needed cfg (stepState ops cfg wind s) = needed cfg s - 1 ∧
      1 ≤ needed cfg s := by
  have hpos : 0 < Int.ceil ((cfg.maxSimTime - s.time) / cfg.timestep) := by
    rw [Int.ceil_pos]
    exact div_pos (by linarith) hdt
  constructor
  · unfold needed
    rw [stepState_time]
    have harg : (cfg.maxSimTime - (s.time + cfg.timestep)) / cfg.timestep =
        (cfg.maxSimTime - s.time) / cfg.timestep - 1 := by
      rw [sub_add_eq_sub_sub, sub_div, div_self (ne_of_gt hdt)]
    rw [harg]
    have : ((1 : ℚ) : ℚ) = ((1 : ℤ) : ℚ) := by norm_num
    rw [this, Int.ceil_sub_int]
    omega
  · unfold needed
    omega

/-- The loop's result does not depend on the fuel, as long as it is at least
`needed`: the source `while` loop terminates through its own guard. -/
theorem simLoop_fuel_irrelevant (ops : MathOps) (cfg : PhysicsConfig)
    (wind : Vector2D) (hdt : 0 < cfg.timestep) :
    ∀ (fuel₁ fuel₂ : ℕ) (s : BallState) (traj : List BallState) (mh td : ℚ),
    needed cfg s ≤ fuel₁ → needed cfg s ≤ fuel₂ →
    simLoop ops cfg wind fuel₁ s traj mh td =
      simLoop ops cfg wind fuel₂ s traj mh td := by
  intro fuel₁
  induction fuel₁ with
  | zero =>
    intro fuel₂ s traj mh td h1 h2
    have hng : ¬ s.time < cfg.maxSimTime :=
      (needed_eq_zero cfg s hdt).mp (Nat.le_zero.mp h1)
    cases fuel₂ with
    | zero => rfl
    | succ m => simp [simLoop, if_neg hng]
  | succ n ih =>
    intro fuel₂ s traj mh td h1 h2
    by_cases hg : s.time < cfg.maxSimTime
    · obtain ⟨hdec, hone⟩ := needed_step ops cfg wind s hdt hg
      cases fuel₂ with
      | zero =>
        exact absurd ((needed_eq_zero cfg s hdt).mp (Nat.le_zero.mp h2)) (by simpa)
      | succ m =>
        simp only [simLoop, if_pos hg]
        cases hstop : stopCheck ops cfg (stepState ops cfg wind s) with
        | some r => rfl
        | none =>
          exact ih m (stepState ops cfg wind s) _ _ _
            (by omega) (by omega)
    · cases fuel₂ with
      | zero =>
        simp [simLoop, if_neg hg]
      | succ m =>
        simp [simLoop, if_neg hg]

/-- Unfolding equation for the loop when the guard holds and the stop check
does not fire. -/
theorem simLoop_succ_none (ops : MathOps) (cfg : PhysicsConfig)
    (wind : Vector2D) (n : ℕ) (s : BallState) (traj : List BallState)
    (mh td : ℚ) (hg : s.time < cfg.maxSimTime)
    (hstop : stopCheck ops cfg (stepState ops cfg wind s) = none) :
    simLoop ops cfg wind (n + 1) s traj mh td =
      simLoop ops cfg wind n (stepState ops cfg wind s)
        (traj ++ [stepState ops cfg wind s])
        (max mh (stepState ops cfg wind s).position.y)
        (td + ops.sqrt (((stepState ops cfg wind s).position.x - s.position.x) ^ 2 +
          ((stepState ops cfg wind s).position.y - s.position.y) ^ 2)) := by
  simp only [simLoop, if_pos hg, hstop]

/-- Unfolding equation for the loop when the guard holds and the stop check
fires. -/
theorem simLoop_succ_some (ops : MathOps) (cfg : PhysicsConfig)
    (wind : Vector2D) (n : ℕ) (s : BallState) (traj : List BallState)
    (mh td : ℚ) (r : StopReason) (hg : s.time < cfg.maxSimTime)
    (hstop : stopCheck ops cfg (stepState ops cfg wind s) = some r) :
    simLoop ops cfg wind (n + 1) s traj mh td =
      (traj ++ [stepState ops cfg wind s],
        max mh (stepState ops cfg wind s).position.y,
        td + ops.sqrt (((stepState ops cfg wind s).position.x - s.position.x) ^ 2 +
          ((stepState ops cfg wind s).position.y - s.position.y) ^ 2),
        r, stepState ops cfg wind s) := by
  simp only [simLoop, if_pos hg, hstop]

/-- The loop appends at most `needed` states to the trajectory. -/
theorem simLoop_length (ops : MathOps) (cfg : PhysicsConfig)
    (wind : Vector2D) (hdt : 0 < cfg.timestep) :
    ∀ (fuel : ℕ) (s : BallState) (traj : List BallState) (mh td : ℚ),
    (simLoop ops cfg wind fuel s traj mh td).1.length ≤
      traj.length + needed cfg s := by
  intro fuel
  induction fuel with
  | zero =>
    intro s traj mh td
    simp [simLoop]
  | succ n ih =>
    intro s traj mh td
    by_cases hg : s.time < cfg.maxSimTime
    · obtain ⟨hdec, hone⟩ := needed_step ops cfg wind s hdt hg
      cases hstop : stopCheck ops cfg (stepState ops cfg wind s) with
      | some r =>
        rw [simLoop_succ_some ops cfg wind n s traj mh td r hg hstop]
        simp only [List.length_append, List.length_singleton]
        omega
      | none =>
        rw [simLoop_succ_none ops cfg wind n s traj mh td hg hstop]
        have := ih (stepState ops cfg wind s)
          (traj ++ [stepState ops cfg wind s])
          (max mh (stepState ops cfg wind s).position.y)
          (td + ops.sqrt (((stepState ops cfg wind s).position.x - s.position.x) ^ 2 +
            ((stepState ops cfg wind s).position.y - s.position.y) ^ 2))
        simp only [List.length_append, List.length_singleton] at this
        omega
    · simp [simLoop, if_neg hg]

/-- The function `validateInput` reads only `angle`, `power` and `seed`; the `anglePhi`
field does not influence it. -/
theorem validateInput_anglePhi (a p sd φ₁ φ₂ : ℚ) :
    validateInput ⟨a, φ₁, p, sd⟩ = validateInput ⟨a, φ₂, p, sd⟩ := rfl

/-- The function `simulate` reads only `angle`, `power` and `seed` from its input; the
`anglePhi` field does not influence it. -/
theorem simulate_anglePhi (ops : MathOps) (cfg : PhysicsConfig)
    (r0 : SeededRNG) (a p sd φ₁ φ₂ : ℚ) :
    simulate ops cfg r0 ⟨a, φ₁, p, sd⟩ = simulate ops cfg r0 ⟨a, φ₂, p, sd⟩ := rfl

/-- The win flag of an assembled result is set exactly on stop reason
`hole`. -/
theorem winIffHole_mkResult (wind : Vector2D)
    (out : List BallState × ℚ × ℚ × StopReason × BallState) :
    WinIffHole (.ok (mkResult wind out)) := by
  unfold WinIffHole mkResult
  by_cases h : out.2.2.2.1 = StopReason.hole
  · simp [h]
  · simp [h]

/-- Shape of a successful `simulate` run. -/
theorem simulate_ok_shape (ops : MathOps) (cfg : PhysicsConfig)
    (r0 : SeededRNG) (input : SimulationInput)
    (hv : (validateInput input).isValid = true) :
    simulate ops cfg r0 input =
      .ok (mkResult (windEffectOf ops cfg input.seed)
        (simLoop ops cfg (windEffectOf ops cfg input.seed) (simFuel cfg)
          (initialStateOf ops cfg input) [initialStateOf ops cfg input] 0 0)) := by
  unfold simulate simulateFuel
  rw [if_pos hv]
  rfl

/-- Local characterisation of the hole branch of the stop checks: it fires
exactly when the state is rolling strictly inside the hole radius and
neither the friction-stop check nor the boundary check (both tested first)
fires; the ball's speed enters only through the friction check. -/
theorem stopCheck_hole_iff (ops : MathOps) (cfg : PhysicsConfig)
    (s : BallState) :
    stopCheck ops cfg s = some .hole ↔
      holeCondition ops cfg s ∧ ¬ frictionCondition ops cfg s ∧
        ¬ boundaryCondition s := by
  simp only [stopCheck]
  by_cases hf : ops.sqrt (s.velocity.x ^ 2 + s.velocity.y ^ 2) <
      cfg.stopSpeedThreshold ∧ s.isRolling = true
  · rw [if_pos hf]
    exact iff_of_false (by simp) (fun hc => hc.2.1 hf)
  · rw [if_neg hf]
    by_cases hb : |s.position.y| > 20 ∨ s.position.x < -5 ∨ s.position.x > 100
    · rw [if_pos hb]
      exact iff_of_false (by simp) (fun hc => hc.2.2 hb)
    · rw [if_neg hb]
      by_cases hh : ops.sqrt ((s.position.x - cfg.holePosition.x) ^ 2 +
          (s.position.y - cfg.holePosition.y) ^ 2) < cfg.holeRadius ∧
          s.isRolling = true
      · rw [if_pos hh]
        exact iff_of_true rfl ⟨hh, hf, hb⟩
      · rw [if_neg hh]
        exact iff_of_false (by simp) (fun hc => hh hc.1)

/-- Shape of a successful `simulateFuel` run. -/
theorem simulateFuel_ok_shape (ops : MathOps) (cfg : PhysicsConfig)
    (r0 : SeededRNG) (input : SimulationInput) (fuel : ℕ)
    (hv : (validateInput input).isValid = true) :
    simulateFuel ops cfg r0 input fuel =
      .ok (mkResult (windEffectOf ops cfg input.seed)
        (simLoop ops cfg (windEffectOf ops cfg input.seed) fuel
          (initialStateOf ops cfg input) [initialStateOf ops cfg input] 0 0)) := by
  unfold simulateFuel
  rw [if_pos hv]
  rfl

/-- Value of `needed` at the initial state is `⌈maxSimTime / timestep⌉`. -/
theorem needed_initial (ops : MathOps) (cfg : PhysicsConfig)
    (input : SimulationInput) :
    needed cfg (initialStateOf ops cfg input) =
      (Int.ceil (cfg.maxSimTime / cfg.timestep)).toNat := by
  unfold needed
  have ht : (initialStateOf ops cfg input).time = 0 := rfl
  rw [ht, sub_zero]

end GolfPhysicsSimulator

open GolfPhysicsSimulator in
/-- C1: for every `SimulationInput` and `PhysicsConfig`, two independent
calls to `simulate` — modelled by running it from two arbitrary RNG states
`r0`, `r0'`, the only mutable state of the simulator — produce identical
results: the same trajectory entry by entry, the same outcome, and the same
`stoppedReason`.  The equality holds because `simulate` begins with
`this.rng.reset(input.seed)` and everything after is a pure function of the
input and the configuration. -/
theorem C1_simulate_deterministic (ops : MathOps) (cfg : PhysicsConfig)
    (r0 r0' : SeededRNG) (input : SimulationInput) :
    simulate ops cfg r0 input = simulate ops cfg r0' input := rfl

open GolfPhysicsSimulator in
/-- C10: two valid inputs agreeing on `angle`, `power` and `seed` but with
arbitrary `anglePhi` fields produce identical simulation results (trajectory,
outcome, final position, wind effect and stop reason): the shipped simulator
never reads `anglePhi`. -/
theorem C10_simulate_ignores_anglePhi (ops : MathOps) (cfg : PhysicsConfig)
    (r0 : SeededRNG) (i1 i2 : SimulationInput) (ha : i1.angle = i2.angle)
    (hp : i1.power = i2.power) (hs : i1.seed = i2.seed) :
    simulate ops cfg r0 i1 = simulate ops cfg r0 i2 := by
  obtain ⟨a1, phi1, p1, s1⟩ := i1
  obtain ⟨a2, phi2, p2, s2⟩ := i2
  have ha' : a1 = a2 := ha
  have hp' : p1 = p2 := hp
  have hs' : s1 = s2 := hs
  subst ha'; subst hp'; subst hs'
  exact simulate_anglePhi ops cfg r0 a1 p1 s1 phi1 phi2

open GolfPhysicsSimulator in
/-- Witness for C10 at a concrete pair of inputs differing only in
`anglePhi`. -/
theorem C10_witness :
    simulate demoOps DEFAULT_PHYSICS_CONFIG (SeededRNG.mk' 0)
        ⟨1 / 10, 0, 1 / 2, 7⟩ =
      simulate demoOps DEFAULT_PHYSICS_CONFIG (SeededRNG.mk' 0)
        ⟨1 / 10, 1, 1 / 2, 7⟩ :=
  C10_simulate_ignores_anglePhi demoOps DEFAULT_PHYSICS_CONFIG
    (SeededRNG.mk' 0) ⟨1 / 10, 0, 1 / 2, 7⟩ ⟨1 / 10, 1, 1 / 2, 7⟩ rfl rfl rfl

/-- C4 (code bug): `reset()` with no argument does not reinitialise the
state to the original seed.  After four `next()` calls on
`new SeededRNG(54321)`, `reset()` leaves the advanced state unchanged
(`this.seed = newSeed ?? this.seed` is a no-op for `undefined`), so the
next output differs from the first output of a freshly constructed
`SeededRNG(54321)`; the half of the claim about `reset(s')` with an
argument does hold. -/
theorem C4_reset_code_bug :
    SeededRNG.reset none rngAfter4 = rngAfter4 ∧
    (SeededRNG.reset none rngAfter4).next.1 ≠ (SeededRNG.mk' 54321).next.1 ∧
    (SeededRNG.reset (some 200) rngAfter4).next.1 =
      (SeededRNG.mk' 200).next.1 := by
  refine ⟨rfl, by decide, rfl⟩

open GolfPhysicsSimulator in
/-- C7: `validateInput` accepts an input exactly when the angle is within
`[-Math.PI/2, Math.PI/2]` inclusive, the power is within `[0, 1]` inclusive,
and the seed is a non-negative integer.  In particular angles exactly at
`±π/2` and powers exactly `0` or `1` are accepted, values strictly beyond
are rejected, and negative or non-integer seeds are rejected. -/
theorem C7_validateInput_boundaries (input : SimulationInput) :
    (validateInput input).isValid = true ↔
      (-(jsPI / 2) ≤ input.angle ∧ input.angle ≤ jsPI / 2 ∧
       0 ≤ input.power ∧ input.power ≤ 1 ∧
       jsIsInteger input.seed = true ∧ 0 ≤ input.seed) := by
  unfold validateInput
  by_cases h1 : input.angle < -(jsPI / 2) ∨ input.angle > jsPI / 2
  · simp only [if_pos h1]
    refine iff_of_false (by simp) ?_
    rintro ⟨ha1, ha2, -⟩
    rcases h1 with h | h <;> linarith
  · by_cases h2 : input.power < 0 ∨ input.power > 1
    · simp only [if_neg h1, if_pos h2]
      refine iff_of_false (by simp) ?_
      rintro ⟨-, -, hp1, hp2, -⟩
      rcases h2 with h | h <;> linarith
    · by_cases h3 : ¬(jsIsInteger input.seed = true) ∨ input.seed < 0
      · simp only [if_neg h1, if_neg h2, if_pos h3]
        refine iff_of_false (by simp) ?_
        rintro ⟨-, -, -, -, hs1, hs2⟩
        rcases h3 with h | h
        · exact h hs1
        · linarith
      · simp only [if_neg h1, if_neg h2, if_neg h3]
        push_neg at h1 h2 h3
        exact iff_of_true (by simp) ⟨h1.1, h1.2, h2.1, h2.2, h3.1, h3.2⟩

/-- C8: `SecurityManager.validatePlay` rejects with reason
`"Timestamp outside acceptable window"` exactly when the absolute difference
between the server clock and the supplied timestamp exceeds
`replayProtectionWindowMs`; the default configuration sets that window to
60000 ms.  Both stale and future timestamps are covered by the absolute
value. -/
theorem C8_replay_window (secCfg : SecurityConfig) (now timestamp : ℚ)
    (recentPlays : List ℚ) :
    ((SecurityManager.validatePlay secCfg now timestamp recentPlays).1.reason =
        some "Timestamp outside acceptable window" ↔
      |now - timestamp| > secCfg.replayProtectionWindowMs) ∧
    DEFAULT_SECURITY_CONFIG.replayProtectionWindowMs = 60000 := by
  refine ⟨?_, rfl⟩
  unfold SecurityManager.validatePlay
  by_cases h1 : |now - timestamp| > secCfg.replayProtectionWindowMs
  · simp [h1]
  · simp only [if_neg h1]
    by_cases h2 : 0 < (recentPlays.filter (fun t => t > now - 1000)).length
    · simp only [if_pos h2]
      exact iff_of_false (by simp) h1
    · simp only [if_neg h2]
      exact iff_of_false (by simp) h1

open GolfPhysicsSimulator in
/-- C6 (amended): the outcome is `win` exactly when the stop reason is
`hole`; and the hole check fires at a step exactly when the state is rolling
with distance to the configured hole centre strictly below `holeRadius`
and neither the friction-stop nor the boundary check — which the source
tests first in the same iteration — fires at that step.  Speed plays no
other role in hole capture. -/
theorem C6_win_iff_hole (ops : MathOps) (cfg : PhysicsConfig)
    (r0 : SeededRNG) (input : SimulationInput) :
    WinIffHole (simulate ops cfg r0 input) ∧
    ∀ s : BallState, stopCheck ops cfg s = some .hole ↔
      holeCondition ops cfg s ∧ ¬ frictionCondition ops cfg s ∧
        ¬ boundaryCondition s := by
  refine ⟨?_, fun s => stopCheck_hole_iff ops cfg s⟩
  by_cases hv : (validateInput input).isValid = true
  · rw [simulate_ok_shape ops cfg r0 input hv]
    exact winIffHole_mkResult _ _
  · unfold simulate simulateFuel
    rw [if_neg hv]
    trivial

open GolfPhysicsSimulator in
/-- Counterexample to C6 as stated: a valid input whose run contains a
trajectory entry that is rolling strictly inside the hole radius, yet the
loop terminates with `stoppedReason = "friction"` (and outcome `lose`),
because the friction-stop check is tested before the hole check in the same
iteration.  So "rolling and within the hole radius at some step" does not
imply stop reason `hole`. -/
theorem C6_counterexample :
    (validateInput inp6).isValid = true ∧
    stoppedReasonOf (simulate demoOps cfg6 (SeededRNG.mk' 0) inp6) =
      some .friction ∧
    ExistsHoleEntry demoOps cfg6 (simulate demoOps cfg6 (SeededRNG.mk' 0) inp6) := by
  exact ⟨by decide, by decide,
    by decide⟩

open GolfPhysicsSimulator in
/-- Counterexample to C3 as stated: for the valid input `inp3`, the initial
trajectory entry (pushed at `t = 0` before the loop) carries the raw,
unrounded initial velocity `cos(0)·(1/1024)·30 = 15/512 = 0.029296875`,
which is not a fixed point of the 4-decimal rounding
(`round4 (15/512) = 0.0293`).  Only the states pushed inside the loop are
rounded. -/
theorem C3_counterexample :
    (validateInput inp3).isValid = true ∧
    ¬ FirstEntryRounded
      (simulate demoOps DEFAULT_PHYSICS_CONFIG (SeededRNG.mk' 0) inp3) := by
  have hv : (validateInput inp3).isValid = true := by decide
  refine ⟨hv, ?_⟩
  rw [simulate_ok_shape demoOps DEFAULT_PHYSICS_CONFIG (SeededRNG.mk' 0) inp3 hv]
  obtain ⟨rest, heq, -⟩ := simLoop_traj_spec demoOps DEFAULT_PHYSICS_CONFIG
    (windEffectOf demoOps DEFAULT_PHYSICS_CONFIG inp3.seed) (simFuel DEFAULT_PHYSICS_CONFIG)
    (initialStateOf demoOps DEFAULT_PHYSICS_CONFIG inp3)
    [initialStateOf demoOps DEFAULT_PHYSICS_CONFIG inp3] 0 0
  intro hcontra
  have h0 : RoundedState (initialStateOf demoOps DEFAULT_PHYSICS_CONFIG inp3) := by
    apply hcontra
    show initialStateOf demoOps DEFAULT_PHYSICS_CONFIG inp3 ∈
      (mkResult _ _).trajectory.take 1
    unfold mkResult
    rw [heq, List.singleton_append, List.take_succ_cons, List.take_zero]
    exact List.mem_cons_self _ _
  have hx : (initialStateOf demoOps DEFAULT_PHYSICS_CONFIG inp3).velocity.x =
      15 / 512 := by
    decide
  have hr : round4 (15 / 512) ≠ 15 / 512 := by
    decide
  exact hr (hx ▸ h0.2.2.1).symm

open GolfPhysicsSimulator in
/-- C3 (amended): every trajectory entry after the initial one is a fixed
point of the 4-decimal rounding in all position and velocity components (the
loop rounds all four components right before pushing each state), and the
initial entry's position is exactly the origin `(0, 0)` (hence rounded); the
initial entry's velocity, however, is the unrounded launch velocity, so the
fixed-point property does not extend to it (see the counterexample). -/
theorem C3_rounding_fixed_points (ops : MathOps) (cfg : PhysicsConfig)
    (r0 : SeededRNG) (input : SimulationInput) :
    TrajRoundedTail (simulate ops cfg r0 input) ∧
    InitialPosZero (simulate ops cfg r0 input) := by
  by_cases hv : (validateInput input).isValid = true
  · rw [simulate_ok_shape ops cfg r0 input hv]
    obtain ⟨rest, heq, hall⟩ := simLoop_traj_spec ops cfg
      (windEffectOf ops cfg input.seed) (simFuel cfg)
      (initialStateOf ops cfg input) [initialStateOf ops cfg input] 0 0
    constructor
    · show ∀ s ∈ (mkResult _ _).trajectory.drop 1, RoundedState s
      unfold mkResult
      rw [heq, List.singleton_append, List.drop_one, List.tail_cons]
      exact hall
    · show ∀ s ∈ (mkResult _ _).trajectory.take 1, s.position = ⟨0, 0⟩
      unfold mkResult
      rw [heq, List.singleton_append, List.take_succ_cons, List.take_zero]
      rintro s hs
      rcases List.mem_cons.mp hs with h | h
      · subst h; rfl
      · exact absurd h (List.not_mem_nil s)
  · unfold simulate simulateFuel
    rw [if_neg hv]
    exact ⟨trivial, trivial⟩

open GolfPhysicsSimulator in
/-- C9 (amended): with a positive timestep, `simulate` terminates through
the source loop's own `time < maxSimTime` guard — its result does not change
when the loop is allowed any amount of extra fuel beyond
`⌈maxSimTime/timestep⌉ + 1` — and the number of loop iterations (trajectory
entries beyond the initial one) is at most `⌈maxSimTime / timestep⌉`.
The bound is the ceiling of `maxSimTime / timestep`; the plain quotient
bound of the claim fails when the timestep does not divide `maxSimTime`
(see the counterexample). -/
theorem C9_terminates_bounded (ops : MathOps) (cfg : PhysicsConfig)
    (r0 : SeededRNG) (input : SimulationInput) (fuel : ℕ)
    (hdt : 0 < cfg.timestep) (hfuel : simFuel cfg ≤ fuel) :
    simulateFuel ops cfg r0 input fuel = simulate ops cfg r0 input ∧
    trajLen (simulate ops cfg r0 input) ≤
      1 + (Int.ceil (cfg.maxSimTime / cfg.timestep)).toNat := by
  have hneed := needed_initial ops cfg input
  by_cases hv : (validateInput input).isValid = true
  · constructor
    · rw [simulateFuel_ok_shape ops cfg r0 input fuel hv,
        simulate_ok_shape ops cfg r0 input hv]
      have hloop := simLoop_fuel_irrelevant ops cfg
        (windEffectOf ops cfg input.seed) hdt fuel (simFuel cfg)
        (initialStateOf ops cfg input) [initialStateOf ops cfg input] 0 0
        (by unfold simFuel at hfuel; omega) (by unfold simFuel; omega)
      rw [hloop]
    · rw [simulate_ok_shape ops cfg r0 input hv]
      show (simLoop ops cfg (windEffectOf ops cfg input.seed) (simFuel cfg)
        (initialStateOf ops cfg input) [initialStateOf ops cfg input]
        0 0).1.length ≤ 1 + (Int.ceil (cfg.maxSimTime / cfg.timestep)).toNat
      have hlen := simLoop_length ops cfg (windEffectOf ops cfg input.seed)
        hdt (simFuel cfg) (initialStateOf ops cfg input)
        [initialStateOf ops cfg input] 0 0
      simp only [List.length_singleton] at hlen
      omega
  · constructor
    · unfold simulate simulateFuel
      rw [if_neg hv, if_neg hv]
    · unfold simulate simulateFuel
      rw [if_neg hv]
      show trajLen (.error _) ≤ _
      simp [trajLen]

open GolfPhysicsSimulator in
/-- Witness input for C9 (a valid input under the shipped configuration). -/
theorem C9_witness :
    simulateFuel demoOps DEFAULT_PHYSICS_CONFIG (SeededRNG.mk' 0) inp3 1801 =
      GolfPhysicsSimulator.simulate demoOps DEFAULT_PHYSICS_CONFIG
        (SeededRNG.mk' 0) inp3 ∧
    trajLen (GolfPhysicsSimulator.simulate demoOps DEFAULT_PHYSICS_CONFIG
        (SeededRNG.mk' 0) inp3) ≤
      1 + (Int.ceil (DEFAULT_PHYSICS_CONFIG.maxSimTime /
        DEFAULT_PHYSICS_CONFIG.timestep)).toNat :=
  C9_terminates_bounded demoOps DEFAULT_PHYSICS_CONFIG (SeededRNG.mk' 0) inp3
    1801 (by decide) (by decide)

open GolfPhysicsSimulator in
/-- Counterexample to C9 as stated: with `timestep = 2/3 > 0` and
`maxSimTime = 1 > 0`, the loop runs while `time < maxSimTime`, entering at
times 0 and 2/3 — two iterations (trajectory length 3, stop reason
`timeout`), which exceeds `maxSimTime / timestep = 1.5`.  The correct bound
is the ceiling, `⌈1.5⌉ = 2`. -/
theorem C9_counterexample :
    (validateInput inp6).isValid = true ∧
    0 < cfg9.timestep ∧ 0 < cfg9.maxSimTime ∧
    stoppedReasonOf (simulate demoOps cfg9 (SeededRNG.mk' 0) inp6) =
      some .timeout ∧
    trajLen (simulate demoOps cfg9 (SeededRNG.mk' 0) inp6) = 3 ∧
    cfg9.maxSimTime / cfg9.timestep < 2 := by
  have hv : (validateInput inp6).isValid = true := by decide
  have hwind : windEffectOf demoOps cfg9 inp6.seed = ⟨0, 0⟩ := by decide
  have hs0 : initialStateOf demoOps cfg9 inp6 = s9a := by decide
  have hfuel : simFuel cfg9 = 3 := by decide
  have hstep1 : stepState demoOps cfg9 ⟨0, 0⟩ s9a = s9b := by decide
  have hstep2 : stepState demoOps cfg9 ⟨0, 0⟩ s9b = s9c := by decide
  have hc1 : stopCheck demoOps cfg9 s9b = none := by
    simp only [stopCheck]
    rw [if_neg (by decide), if_neg (by decide), if_neg (by decide)]
  have hc2 : stopCheck demoOps cfg9 s9c = none := by
    simp only [stopCheck]
    rw [if_neg (by decide), if_neg (by decide), if_neg (by decide)]
  have hg0 : s9a.time < cfg9.maxSimTime := by decide
  have hg1 : s9b.time < cfg9.maxSimTime := by decide
  have hg2 : ¬ s9c.time < cfg9.maxSimTime := by decide
  have hloop : (simLoop demoOps cfg9 ⟨0, 0⟩ 3 s9a [s9a] 0 0).1 =
      [s9a, s9b, s9c] ∧
      (simLoop demoOps cfg9 ⟨0, 0⟩ 3 s9a [s9a] 0 0).2.2.2.1 = .timeout := by
    rw [simLoop_succ_none demoOps cfg9 ⟨0, 0⟩ 2 s9a [s9a] 0 0 hg0
      (by rw [hstep1]; exact hc1)]
    rw [hstep1]
    rw [simLoop_succ_none demoOps cfg9 ⟨0, 0⟩ 1 s9b ([s9a] ++ [s9b]) _ _ hg1
      (by rw [hstep2]; exact hc2)]
    rw [hstep2]
    simp only [simLoop, if_neg hg2]
    exact ⟨rfl, trivial⟩
  have hshape := simulate_ok_shape demoOps cfg9 (SeededRNG.mk' 0) inp6 hv
  rw [hwind, hs0, hfuel] at hshape
  refine ⟨hv, by decide, by decide, ?_, ?_, by decide⟩
  · rw [hshape]
    show some (simLoop demoOps cfg9 ⟨0, 0⟩ 3 s9a [s9a] 0 0).2.2.2.1 =
      some StopReason.timeout
    rw [hloop.2]
  · rw [hshape]
    show (simLoop demoOps cfg9 ⟨0, 0⟩ 3 s9a [s9a] 0 0).1.length = 3
    rw [hloop.1]
    rfl

open GolfPhysicsSimulator in
/-- Counterexample to C5 as stated: for an input whose `anglePhi = 2` lies
outside `[-π/2, π/2]` (with valid angle, power and seed),
`GolfPhysicsSimulator.validateInput` returns `isValid = true` — it never
examines `anglePhi` — and `simulate` returns a result rather than throwing
an invalid-input error. -/
theorem C5_counterexample :
    (2 : ℚ) > jsPI / 2 ∧
    (validateInput inp5).isValid = true ∧
    resultIsOk (simulate demoOps DEFAULT_PHYSICS_CONFIG (SeededRNG.mk' 0)
      inp5) = true := by
  refine ⟨by decide, by decide, ?_⟩
  have hv : (validateInput inp5).isValid = true := by decide
  rw [simulate_ok_shape demoOps DEFAULT_PHYSICS_CONFIG (SeededRNG.mk' 0)
    inp5 hv]
  rfl

open GolfPhysicsSimulator in
/-- C5 (amended): an out-of-range `anglePhi` is rejected, but by the play
route's parameter range check (`route.ts` lines 180-203), not by the
simulator: `POST` answers "Input parameters out of valid range" whenever
`anglePhi` is outside `[-π/2, π/2]` and the session and security checks
pass, while `validateInput` and `simulate` are entirely insensitive to the
`anglePhi` field (their results coincide with the ones for the same input
with `anglePhi = 0`). -/
theorem C5_route_rejects_anglePhi (ops : MathOps) (cfg : PhysicsConfig)
    (secCfg : SecurityConfig) (now : ℚ) (session : GameSession)
    (recentPlays : List ℚ) (r0 : SeededRNG) (input : SimulationInput)
    (timestamp : ℚ)
    (hphi : input.anglePhi < -(jsPI / 2) ∨ input.anglePhi > jsPI / 2)
    (hexp : ¬ now > session.expiresAt) (hused : session.used = false)
    (hsec : (SecurityManager.validatePlay secCfg now timestamp
      recentPlays).1.allowed = true) :
    (PlayRoute.POST ops cfg secCfg now session recentPlays input.angle
        input.anglePhi input.power timestamp).1 =
      .rejected "Input parameters out of valid range" 400 ∧
    validateInput input = validateInput { input with anglePhi := 0 } ∧
    simulate ops cfg r0 input = simulate ops cfg r0 { input with anglePhi := 0 } := by
  refine ⟨?_, ?_, ?_⟩
  · unfold PlayRoute.POST
    rw [if_neg hexp]
    rw [if_neg (by simp [hused])]
    rcases hval : SecurityManager.validatePlay secCfg now timestamp recentPlays
      with ⟨chk, rp⟩
    rw [hval] at hsec
    simp only [hval]
    rw [if_neg (by simp_all)]
    rw [if_pos ?hc]
    case hc =>
      rcases hphi with h | h
      · exact Or.inr (Or.inr (Or.inr (Or.inr (Or.inl h))))
      · exact Or.inr (Or.inr (Or.inr (Or.inr (Or.inr h))))
  · obtain ⟨a, phi, p, sd⟩ := input
    exact validateInput_anglePhi a p sd phi 0
  · obtain ⟨a, phi, p, sd⟩ := input
    exact simulate_anglePhi ops cfg r0 a p sd phi 0

open GolfPhysicsSimulator in
/-- Witness for C5 at concrete values: `anglePhi = 2`, a live unused
session, matching timestamps. -/
theorem C5_witness :
    (PlayRoute.POST demoOps DEFAULT_PHYSICS_CONFIG DEFAULT_SECURITY_CONFIG 0
        demoSession [] inp5.angle inp5.anglePhi inp5.power 0).1 =
      .rejected "Input parameters out of valid range" 400 ∧
    validateInput inp5 = validateInput { inp5 with anglePhi := 0 } ∧
    simulate demoOps DEFAULT_PHYSICS_CONFIG (SeededRNG.mk' 0) inp5 =
      simulate demoOps DEFAULT_PHYSICS_CONFIG (SeededRNG.mk' 0)
        { inp5 with anglePhi := 0 } :=
  C5_route_rejects_anglePhi demoOps DEFAULT_PHYSICS_CONFIG
    DEFAULT_SECURITY_CONFIG 0 demoSession [] (SeededRNG.mk' 0) inp5 0
    (Or.inr (by decide)) (by decide) (by decide) (by decide)

/-- C2 (code bug): the route marks a session used only in the win branch
(`route.ts` lines 217-252).  A first play that loses is accepted but leaves
`used = false` (only `playCount` is incremented), and a second play against
the same session two seconds later is accepted again instead of being
rejected with "Session already used".  This contradicts the documented
invariant ("a losing shot also consumes the one allowed attempt"), the
unused `maxPlaysPerSession = 1` security setting, and the integration test
"should prevent reusing same session", which expects HTTP 409 after any
first play. -/
theorem C2_session_reuse_after_loss :
    playFirst.1 = .accepted .lose ∧
    playFirst.2.1.used = false ∧
    playFirst.2.1.playCount = 1 ∧
    playSecond.1 = .accepted .lose ∧
    playSecond.2.1.playCount = 2 := by
  refine ⟨by decide, by decide, by decide, by decide, by decide⟩
